import Mathlib

/-!
Shallow embedding of `src/web_to_ftp.py` (ETLPipeline): the per-source
fetch → stage → upload → cleanup pipeline, the sequential and parallel
execution strategies, the summary aggregation, and the CLI entry point.

External effects are modelled explicitly:
  * the per-attempt outcome of `pd.read_csv` is a function `Nat → Except String α`
    (the `.error` case models a raised exception, carrying its message);
  * the local filesystem is tracked as a Boolean "does `<source>.csv` exist";
  * the FTP server is a set of existing directories plus a creation-permission
    predicate; `cwd` succeeds exactly on existing (normalised) paths and
    raises `error_perm` otherwise; `mkd` succeeds exactly where permitted;
  * wall-clock durations (`time.time() - start_time`) are opaque rationals
    supplied by the environment;
  * `time.sleep` calls are recorded as a trace of durations.
-/

namespace WebToFtp

/-- Mirrors the `ProcessResult` dataclass (lines 34-41): per-source outcome
record with optional byte size and elapsed time. -/
structure ProcessResult where
  source_name : String
  success : Bool
  message : String
  file_size : Option Nat := none
  processing_time : Option ℚ := none
deriving DecidableEq, Repr

/-- Observable outcome of `read_csv_with_retry` (lines 83-99): the returned
value (`.ok (some df)`), the raised exception (`.error e`), or the implicit
`None` return when the loop body never runs (`.ok none`, only possible for
`max_retries = 0`); plus the number of fetch attempts made and the trace of
`time.sleep` durations. -/
structure RetryOutcome (α : Type) where
  result : Except String (Option α)
  attempts : Nat
  sleeps : List Nat
deriving Repr

/-- The retry loop of `read_csv_with_retry`, lines 88-99.  `attempt` is the
current 0-based loop index and `fuel` the number of remaining iterations
(`max_retries - attempt` at every call), kept structural so the definition
computes.  On failure at the last attempt (`attempt == max_retries - 1`) the
exception is re-raised; otherwise the loop sleeps `2 ^ attempt` and retries. -/
def retryGo (fetch : Nat → Except String α) (max_retries : Nat) :
    Nat → Nat → RetryOutcome α
  | _, 0 => ⟨.ok none, 0, []⟩
  | attempt, fuel + 1 =>
    match fetch attempt with
    | .ok df => ⟨.ok (some df), attempt + 1, []⟩
    | .error e =>
      if attempt = max_retries - 1 then
        ⟨.error e, attempt + 1, []⟩
      else
        let rest := retryGo fetch max_retries (attempt + 1) fuel
        ⟨rest.result, rest.attempts, 2 ^ attempt :: rest.sleeps⟩

/-- `read_csv_with_retry` (lines 83-99): run the loop from attempt 0 with
`max_retries` iterations available.  The falling-off-the-loop case returns
`.ok none` (Python's implicit `return None`); attempts are counted and the
back-off sleeps recorded. -/
def read_csv_with_retry (fetch : Nat → Except String α) (max_retries : Nat := 3) :
    RetryOutcome α :=
  retryGo fetch max_retries 0 max_retries

/-- `[2 ^ a, 2 ^ (a + 1), ..., 2 ^ (a + k - 1)]`: the expected exponential
back-off trace starting at attempt index `a`. -/
def backoffs : Nat → Nat → List Nat
  | _, 0 => []
  | a, k + 1 => 2 ^ a :: backoffs (a + 1) k

/-! ### FTP server model and `ensure_ftp_directory` -/

/-- Python's `s.strip('/')` on the character list: drop leading and trailing
slashes. -/
def stripSlashes (l : List Char) : List Char :=
  ((l.dropWhile (fun c => c = '/')).reverse.dropWhile (fun c => c = '/')).reverse

/-- Python's `s.split('/')`: split on every slash, keeping empty segments
(so `"".split('/') = [""]`). -/
def splitSlash : List Char → List (List Char)
  | [] => [[]]
  | c :: rest =>
    if c = '/' then [] :: splitSlash rest
    else
      match splitSlash rest with
      | [] => [[c]]
      | s :: ss => (c :: s) :: ss

/-- `target_dir.strip('/').split('/')` from line 110. -/
def pathSegs (target : String) : List String :=
  (splitSlash (stripSlashes target.data)).map (fun cs => String.mk cs)

/-- How the FTP server canonicalises a path string it is asked to `cwd` into:
the nonempty slash-separated segments. -/
def serverNorm (p : String) : List String :=
  ((splitSlash p.data).map (fun cs => String.mk cs)).filter (fun x => x ≠ "")

/-- Model of the remote FTP server as seen through one authenticated
connection: the set of existing directories (as canonical segment lists) and
which directories `mkd` is permitted to create.  `storbinary` success is
modelled separately at the call site. -/
structure FTPServer where
  dirs : List (List String)
  canCreate : List String → Bool

/-- `ftp.cwd` succeeds iff the canonicalised path is the root or an existing
directory; otherwise it raises `error_perm`. -/
def cwdOk (s : FTPServer) (segs : List String) : Bool :=
  segs.isEmpty || s.dirs.contains segs

/-- The creation loop of `ensure_ftp_directory`, lines 110-118: walk the
segments of the target, accumulating `current_path`; `cwd` into each prefix,
and where that raises `error_perm`, `mkd` then `cwd`.  `pre` is the list of
raw segments already consumed, so the accumulated `current_path` string
canonicalises to `(pre ++ [d]).filter (· ≠ "")` (segments produced by a
slash-split contain no slash).  A failed `mkd` (creation not permitted) is the
exception caught at line 121, surfacing as `(false, state so far)`. -/
def ensureLoop : FTPServer → List String → List String → Bool × FTPServer
  | s, _, [] => (true, s)
  | s, pre, d :: rest =>
    if cwdOk s ((pre ++ [d]).filter (fun x => x ≠ "")) then
      ensureLoop s (pre ++ [d]) rest
    else if s.canCreate ((pre ++ [d]).filter (fun x => x ≠ "")) then
      ensureLoop ⟨((pre ++ [d]).filter (fun x => x ≠ "")) :: s.dirs, s.canCreate⟩
        (pre ++ [d]) rest
    else (false, s)

/-- `ensure_ftp_directory` (lines 101-123): try `cwd(target_dir)`; on
`error_perm`, create the directory structure segment by segment and navigate
into it; any failure inside the creation block returns `False`.  Returns the
Boolean result together with the server state (directories created so far
persist even when the overall call fails). -/
def ensure_ftp_directory (s : FTPServer) (target_dir : String) : Bool × FTPServer :=
  if cwdOk s (serverNorm target_dir) then (true, s)
  else ensureLoop s [] (pathSegs target_dir)

/-- `upload_to_ftp` (lines 125-141): ensure the target directory, then stat,
open and `storbinary` the staged file.  `transferOk` models whether that
stat/open/transfer step succeeds; every exception in it is caught at line 139
and turned into `False`.  Returns the Boolean result and the server state. -/
def upload_to_ftp (target_dir : String) (ftp : FTPServer) (transferOk : Bool) :
    Bool × FTPServer :=
  let ens := ensure_ftp_directory ftp target_dir
  if ens.1 = false then (false, ens.2)
  else (transferOk, ens.2)

/-! ### `safe_delete_file` and the per-source pipeline -/

/-- Observable outcome of `safe_delete_file`: the returned Boolean, whether
the file still exists afterwards, and whether `os.remove` was invoked. -/
structure DeleteOutcome where
  returned : Bool
  existsAfter : Bool
  removeInvoked : Bool
deriving DecidableEq, Repr

/-- `safe_delete_file` (lines 143-153): if the file exists, `remove` it
(returning `False` if `remove` raises, the exception being caught at line
151); if it does not exist, return `True` without touching the filesystem. -/
def safe_delete_file (fileExists deleteRaises : Bool) : DeleteOutcome :=
  if fileExists then
    if deleteRaises then ⟨false, true, true⟩ else ⟨true, false, true⟩
  else ⟨true, false, false⟩

/-- Environment of one `process_single_source` call: the outcome of every
external effect it may perform.  `stage` is `df.to_csv` + `stat().st_size`
(lines 165-166), returning the byte size or raising; `stageLeavesFile` says
whether a partial file is on disk when `to_csv` raised; `connect` is
`FTP_TLS(...)` + `login` + `prot_p` (lines 66-69); `transferOk` is the
stat/open/`storbinary` step inside `upload_to_ftp`; `deleteRaises` is whether
`os.remove` raises; `elapsed` is the opaque `time.time() - start_time`. -/
structure PipelineEnv (α : Type) where
  fetch : Nat → Except String α
  stage : α → Except String Nat
  stageLeavesFile : Bool
  connect : Except String FTPServer
  transferOk : Bool
  deleteRaises : Bool
  elapsed : ℚ

/-- Observable trace of one `process_single_source` call: whether
`<source_name>.csv` exists when the result is returned, whether an FTP
connection was attempted, how many fetch attempts were made, and whether the
outer `except Exception` handler (lines 193-201) ran. -/
structure ProcState where
  fileExists : Bool
  connectAttempted : Bool
  fetchAttempts : Nat
  outerExceptRan : Bool
deriving DecidableEq, Repr

/-- `process_single_source` (lines 155-201), returning the `ProcessResult`
together with the observable trace.  Control flow follows the source exactly:
fetch with 3 retries; stage; open the connection; `upload_to_ftp`; on upload
returning `False`, return the failed result from inside the `with` block
(lines 172-179) — note no `safe_delete_file` call on that path; on success,
delete and return; any exception reaching the outer handler deletes and
returns a failed result whose message is `"Error: " + str(e)` and whose
`file_size` is left `None`. -/
def process_single_source (env : PipelineEnv α) (source_name target_dir : String) :
    ProcessResult × ProcState :=
  let retry := read_csv_with_retry env.fetch 3
  match retry.result with
  | .error e =>
    let del := safe_delete_file false env.deleteRaises
    (⟨source_name, false, "Error: " ++ e, none, some env.elapsed⟩,
     ⟨del.existsAfter, false, retry.attempts, true⟩)
  | .ok none =>
    let del := safe_delete_file false env.deleteRaises
    (⟨source_name, false,
      "Error: " ++ "'NoneType' object has no attribute 'to_csv'",
      none, some env.elapsed⟩,
     ⟨del.existsAfter, false, retry.attempts, true⟩)
  | .ok (some df) =>
    match env.stage df with
    | .error e =>
      let del := safe_delete_file env.stageLeavesFile env.deleteRaises
      (⟨source_name, false, "Error: " ++ e, none, some env.elapsed⟩,
       ⟨del.existsAfter, false, retry.attempts, true⟩)
    | .ok file_size =>
      match env.connect with
      | .error e =>
        let del := safe_delete_file true env.deleteRaises
        (⟨source_name, false, "Error: " ++ e, none, some env.elapsed⟩,
         ⟨del.existsAfter, true, retry.attempts, true⟩)
      | .ok ftp =>
        let up := upload_to_ftp target_dir ftp env.transferOk
        if up.1 = false then
          (⟨source_name, false, "Failed to upload to FTP", some file_size,
            some env.elapsed⟩,
           ⟨true, true, retry.attempts, false⟩)
        else
          let del := safe_delete_file true env.deleteRaises
          (⟨source_name, true, "Successfully processed", some file_size,
            some env.elapsed⟩,
           ⟨del.existsAfter, true, retry.attempts, false⟩)

/-! ### Execution strategies -/

/-- `run_sequential` (lines 214-230): process the configured sources one at a
time in the mapping's iteration order, collecting one result per source keyed
by its name.  `envs` supplies each source's external-effect outcomes. -/
def run_sequential (envs : String → PipelineEnv α) (target_dir : String)
    (config : List String) : List (String × ProcessResult) :=
  config.map (fun name => (name, (process_single_source (envs name) name target_dir).1))

/-- The `try/except` around `future.result()` in the collection loop of
`run_parallel` (lines 248-263): a result produced by the worker is recorded
as is; an exception raised out of the future is converted into a failed
`ProcessResult` with message `"Unexpected error: " + str(e)` and no size or
time. -/
def collect_future (source_name : String) (fr : Except String ProcessResult) :
    ProcessResult :=
  match fr with
  | .ok r => r
  | .error e => ⟨source_name, false, "Unexpected error: " ++ e, none, none⟩

/-- `run_parallel` (lines 232-265): all sources are submitted to the pool,
then results are collected in completion order (`as_completed`), modelled by
`completion_order`, a permutation of the configured sources.  `futureResult`
is what `future.result()` does for each source: `.ok r` when the worker
returned `r` (normally `(process_single_source ...).1`), `.error e` when the
worker raised out of the future. -/
def run_parallel (futureResult : String → Except String ProcessResult)
    (completion_order : List String) : List (String × ProcessResult) :=
  completion_order.map (fun name => (name, collect_future name (futureResult name)))

/-! ### Summary reporting -/

/-- The five aggregates logged by `print_summary` (lines 267-282). -/
structure RunSummary where
  total : Nat
  successful : Nat
  failed : Nat
  total_size : Nat
  total_time : ℚ
deriving DecidableEq, Repr

/-- `print_summary` (lines 267-282): count entries and successes, report
`failed = total - successful`, sum `file_size or 0` over successful entries
only, and sum `processing_time or 0` over all entries. -/
def print_summary (results : List ProcessResult) : RunSummary :=
  let successful := (results.filter (fun r => r.success)).length
  let total := results.length
  let total_size := (((results.filter (fun r => r.success)).map
    (fun r => r.file_size.getD 0))).sum
  let total_time := ((results.map (fun r => r.processing_time.getD 0))).sum
  ⟨total, successful, total - successful, total_size, total_time⟩

/-! ### Entry point -/

/-- What `main` (lines 284-325) decides to do, after the argument checks. -/
inductive MainAction where
  | exitUsage : MainAction
  | exitInvalidMode : MainAction
  | runOnce (parallel : Bool) : MainAction
  | scheduleDaily (parallel : Bool) : MainAction
deriving DecidableEq, Repr

/-- The actions of `main` that exit with status 1 before any source is
processed: the too-few-arguments usage exit (line 287) and the
invalid-execution-mode exit (line 325). -/
def exitsNonZeroWithoutProcessing : MainAction → Bool
  | .exitUsage => true
  | .exitInvalidMode => true
  | .runOnce _ => false
  | .scheduleDaily _ => false

/-- `main` (lines 284-325) over the command-line arguments after the program
name.  No arguments: print usage and `sys.exit(1)`.  Otherwise
`processing_mode` defaults to `"sequential"`, and `run_pipeline` runs the
parallel strategy exactly when `processing_mode == "parallel"` (line 296) —
any other value falls to the sequential branch.  `"manual"` runs the pipeline
once; `"schedule"` registers it daily at 22:00; any other execution mode
prints an error and `sys.exit(1)`.  (The `ETLPipeline()` construction and its
environment-variable loading are the excluded external collaborators.) -/
def main : List String → MainAction
  | [] => .exitUsage
  | execution_mode :: rest =>
    let processing_mode := rest.headD "sequential"
    if execution_mode = "manual" then .runOnce (processing_mode = "parallel")
    else if execution_mode = "schedule" then .scheduleDaily (processing_mode = "parallel")
    else .exitInvalidMode

/-! ### Concrete environments used to exercise the definitions -/

/-- A fetch that fails twice and then returns data: the C3 scenario. -/
def fetchTwiceFailing : Nat → Except String Nat
  | 0 => .error "e0"
  | 1 => .error "e1"
  | _ => .ok 42

/-- An environment whose fetch and staging succeed, whose connection opens
onto a server where the target directory `/data` already exists, but whose
transfer (`storbinary`) fails. -/
def envUploadFail : PipelineEnv Nat where
  fetch := fun _ => .ok 42
  stage := fun _ => .ok 100
  stageLeavesFile := false
  connect := .ok ⟨[["data"]], fun _ => false⟩
  transferOk := false
  deleteRaises := false
  elapsed := 1

/-- An environment whose fetch and staging succeed but whose FTP connection
attempt raises. -/
def envConnFail : PipelineEnv Nat where
  fetch := fun _ => .ok 7
  stage := fun _ => .ok 100
  stageLeavesFile := false
  connect := .error "Connection refused"
  transferOk := true
  deleteRaises := false
  elapsed := 1

/-- An environment whose fetch fails on every attempt. -/
def envAllFail : PipelineEnv Nat where
  fetch := fun _ => .error "timeout"
  stage := fun _ => .ok 100
  stageLeavesFile := false
  connect := .ok ⟨[["data"]], fun _ => true⟩
  transferOk := true
  deleteRaises := false
  elapsed := 1

/-- An environment where everything succeeds (server starts empty but allows
all creations). -/
def envAllOk : PipelineEnv Nat where
  fetch := fun _ => .ok 42
  stage := fun _ => .ok 250
  stageLeavesFile := false
  connect := .ok ⟨[], fun _ => true⟩
  transferOk := true
  deleteRaises := false
  elapsed := 2

/-- An initially empty FTP server permitting every directory creation. -/
def emptyServer : FTPServer := ⟨[], fun _ => true⟩

/-- Per-source environments for a sequential run: every source succeeds. -/
def seqEnvs : String → PipelineEnv Nat := fun _ => envAllOk

/-- Future results for a parallel run in which the worker for source `"b"`
crashes out of its future and every other worker returns a successful
result. -/
def parFutures : String → Except String ProcessResult
  | "b" => .error "worker crashed"
  | n => .ok ⟨n, true, "Successfully processed", some 10, some 1⟩

/-! ## Helper lemmas -/

/-- The retry loop's back-off trace: with `fuel` iterations left at 0-based
index `attempt` (and `attempt + fuel = max_retries`), at least one more
attempt is made, and a sleep of `2 ^ i` is recorded after every failed
attempt `i` except the last attempt made. -/
theorem retryGo_sleeps (fetch : Nat → Except String α) (m : Nat) :
    ∀ fuel attempt, attempt + fuel = m → 1 ≤ fuel →
      attempt + 1 ≤ (retryGo fetch m attempt fuel).attempts ∧
      (retryGo fetch m attempt fuel).sleeps
        = backoffs attempt ((retryGo fetch m attempt fuel).attempts - (attempt + 1)) := by
  intro fuel
  induction fuel with
  | zero => intro attempt _ hf; omega
  | succ f ih =>
    intro attempt hsum _
    cases hf : fetch attempt with
    | ok df => simp [retryGo, hf, backoffs]
    | error e =>
      by_cases hlast : attempt = m - 1
      · subst hlast
        simp [retryGo, hf, backoffs]
      · have hf1 : 1 ≤ f := by omega
        have ih' := ih (attempt + 1) (by omega) hf1
        have hred : retryGo fetch m attempt (f + 1)
            = ⟨(retryGo fetch m (attempt + 1) f).result,
               (retryGo fetch m (attempt + 1) f).attempts,
               2 ^ attempt :: (retryGo fetch m (attempt + 1) f).sleeps⟩ := by
          simp [retryGo, hf, hlast]
        rw [hred]
        dsimp only
        refine ⟨by omega, ?_⟩
        have hk : (retryGo fetch m (attempt + 1) f).attempts - (attempt + 1)
            = ((retryGo fetch m (attempt + 1) f).attempts - (attempt + 1 + 1)) + 1 := by
          omega
        rw [ih'.2, hk]
        rfl

/-- `cwd` success is preserved when the set of existing directories grows. -/
theorem cwdOk_mono (s t : FTPServer) (n : List String)
    (hsub : ∀ d ∈ s.dirs, d ∈ t.dirs) (h : cwdOk s n = true) : cwdOk t n = true := by
  simp only [cwdOk, Bool.or_eq_true, List.isEmpty_iff] at h ⊢
  rcases h with h | h
  · exact Or.inl h
  · exact Or.inr (List.elem_eq_true_of_mem (hsub _ (List.mem_of_elem_eq_true h)))

/-- The creation loop never removes directories: every directory existing
before a run still exists afterwards. -/
theorem ensureLoop_mono : ∀ (rest : List String) (s : FTPServer) (pre : List String),
    ∀ d ∈ s.dirs, d ∈ (ensureLoop s pre rest).2.dirs := by
  intro rest
  induction rest with
  | nil => intro s pre d hd; exact hd
  | cons seg rest ih =>
    intro s pre d hd
    by_cases h1 : cwdOk s ((pre ++ [seg]).filter (fun x => x ≠ "")) = true
    · rw [ensureLoop, if_pos h1]
      exact ih s (pre ++ [seg]) d hd
    · by_cases h2 : s.canCreate ((pre ++ [seg]).filter (fun x => x ≠ "")) = true
      · rw [ensureLoop, if_neg h1, if_pos h2]
        exact ih _ _ d (List.mem_cons_of_mem _ hd)
      · rw [ensureLoop, if_neg h1, if_neg h2]
        exact hd

/-- Replaying a successful creation loop from its own final state succeeds
again and changes nothing: every prefix it visits now exists, so every `cwd`
succeeds and no `mkd` is issued. -/
theorem ensureLoop_replay : ∀ (rest : List String) (s s' : FTPServer) (pre : List String),
    ensureLoop s pre rest = (true, s') → ensureLoop s' pre rest = (true, s') := by
  intro rest
  induction rest with
  | nil =>
    intro s s' pre h
    simp only [ensureLoop, Prod.mk.injEq, true_and] at h
    simp [ensureLoop, h]
  | cons seg rest ih =>
    intro s s' pre h
    by_cases h1 : cwdOk s ((pre ++ [seg]).filter (fun x => x ≠ "")) = true
    · rw [ensureLoop, if_pos h1] at h
      have hsub : ∀ d ∈ s.dirs, d ∈ s'.dirs := by
        have := ensureLoop_mono rest s (pre ++ [seg])
        rwa [h] at this
      have h1' := cwdOk_mono s s' _ hsub h1
      rw [ensureLoop, if_pos h1']
      exact ih _ _ _ h
    · by_cases h2 : s.canCreate ((pre ++ [seg]).filter (fun x => x ≠ "")) = true
      · rw [ensureLoop, if_neg h1, if_pos h2] at h
        have hmem : ((pre ++ [seg]).filter (fun x => x ≠ "")) ∈ s'.dirs := by
          have := ensureLoop_mono rest
            ⟨((pre ++ [seg]).filter (fun x => x ≠ "")) :: s.dirs, s.canCreate⟩ (pre ++ [seg])
          rw [h] at this
          exact this _ (List.mem_cons_self _ _)
        have h1' : cwdOk s' ((pre ++ [seg]).filter (fun x => x ≠ "")) = true := by
          simp only [cwdOk, Bool.or_eq_true]
          exact Or.inr (List.elem_eq_true_of_mem hmem)
        rw [ensureLoop, if_pos h1']
        exact ih _ _ _ h
      · rw [ensureLoop, if_neg h1, if_neg h2] at h
        simp at h

/-! ## Claims -/

/-- C1: the claim says the local artifact `<sourceName>.csv` is absent by the
time the `ProcessResult` is returned regardless of which step failed.  The
code violates this: when fetch and staging succeed but `upload_to_ftp`
returns `False` (here: the transfer fails on a server where the target
directory exists), `process_single_source` returns the failed result from
inside the `with` block without ever calling `safe_delete_file`, so the
artifact is still on disk. -/
theorem upload_failure_leaves_artifact :
    (process_single_source envUploadFail "sales" "/data").1
      = ⟨"sales", false, "Failed to upload to FTP", some 100, some 1⟩ ∧
    (process_single_source envUploadFail "sales" "/data").2.fileExists = true := by
  decide

/-- C2 counterexample: the claim includes the remote-connect failure among
the cases where `file_size` equals the staged size.  In the code a connect
failure raises out of `get_ftp_connection` into the outer handler, which
builds the result without `file_size`: with staging having succeeded at 100
bytes, the failed result carries `file_size = None`, not 100. -/
theorem connect_failure_drops_file_size :
    envConnFail.stage 7 = .ok 100 ∧
    (process_single_source envConnFail "sales2" "/data").1.success = false ∧
    (process_single_source envConnFail "sales2" "/data").1.file_size ≠ some 100 := by
  refine ⟨rfl, by decide, by decide⟩

/-- C2 (amended): if staging succeeded with `size` bytes and `upload_to_ftp`
fails (directory-ensure or transfer), the outcome is failed with message
"Failed to upload to FTP" and `file_size = size`; if instead the remote
connect raises, the outcome is failed with an "Error: " message and
`file_size = None`. -/
theorem upload_stage_failure_outcomes (α : Type) :
    (∀ (env : PipelineEnv α) (name td : String) (df : α) (size : Nat) (ftp : FTPServer),
      (read_csv_with_retry env.fetch 3).result = .ok (some df) →
      env.stage df = .ok size →
      env.connect = .ok ftp →
      (upload_to_ftp td ftp env.transferOk).1 = false →
      (process_single_source env name td).1
        = ⟨name, false, "Failed to upload to FTP", some size, some env.elapsed⟩) ∧
    (∀ (env : PipelineEnv α) (name td : String) (df : α) (size : Nat) (e : String),
      (read_csv_with_retry env.fetch 3).result = .ok (some df) →
      env.stage df = .ok size →
      env.connect = .error e →
      (process_single_source env name td).1
        = ⟨name, false, "Error: " ++ e, none, some env.elapsed⟩) := by
  constructor
  · intro env name td df size ftp hf hs hc hup
    simp [process_single_source, hf, hs, hc, hup]
  · intro env name td df size e hf hs hc
    simp [process_single_source, hf, hs, hc]

/-- Witness for the amended C2, at the two concrete environments. -/
theorem upload_stage_failure_outcomes_witness :
    (process_single_source envUploadFail "w2" "/data").1
      = ⟨"w2", false, "Failed to upload to FTP", some 100, some 1⟩ ∧
    (process_single_source envConnFail "w2" "/data").1
      = ⟨"w2", false, "Error: " ++ "Connection refused", none, some 1⟩ :=
  ⟨(upload_stage_failure_outcomes Nat).1 envUploadFail "w2" "/data" 42 100
      ⟨[["data"]], fun _ => false⟩ rfl rfl rfl (by decide),
   (upload_stage_failure_outcomes Nat).2 envConnFail "w2" "/data" 7 100
      "Connection refused" rfl rfl rfl⟩

/-- C3: a fetch failing on attempts 1 and 2 and succeeding on attempt 3 with
`max_retries = 3` returns the dataset after exactly 3 attempts, sleeping
`2 ^ 0` then `2 ^ 1` between attempts; and in general (any fetch, any
`max_retries ≥ 1`) a sleep of `2 ^ i` follows the failed attempt `i` for
every attempt except the last one made, after which nothing is slept. -/
theorem read_csv_with_retry_spec (α : Type) :
    (∀ (f : Nat → Except String α) (e0 e1 : String) (d : α),
        f 0 = .error e0 → f 1 = .error e1 → f 2 = .ok d →
        read_csv_with_retry f 3 = ⟨.ok (some d), 3, [2 ^ 0, 2 ^ 1]⟩) ∧
    (∀ (f : Nat → Except String α) (m : Nat), 1 ≤ m →
        (read_csv_with_retry f m).sleeps
          = backoffs 0 ((read_csv_with_retry f m).attempts - 1)) := by
  constructor
  · intro f e0 e1 d h0 h1 h2
    simp [read_csv_with_retry, retryGo, h0, h1, h2]
  · intro f m hm
    exact (retryGo_sleeps f m m 0 (by omega) hm).2

/-- Witness for C3 at the concrete twice-failing fetch. -/
theorem read_csv_with_retry_spec_witness :
    read_csv_with_retry fetchTwiceFailing 3 = ⟨.ok (some 42), 3, [2 ^ 0, 2 ^ 1]⟩ ∧
    (read_csv_with_retry fetchTwiceFailing 3).sleeps
      = backoffs 0 ((read_csv_with_retry fetchTwiceFailing 3).attempts - 1) :=
  ⟨(read_csv_with_retry_spec Nat).1 fetchTwiceFailing "e0" "e1" 42 rfl rfl rfl,
   (read_csv_with_retry_spec Nat).2 fetchTwiceFailing 3 (by decide)⟩

/-- C4: when every fetch attempt fails, processing the source yields a failed
outcome after exactly 3 attempts, and no FTP connection is attempted. -/
theorem fetch_exhaustion (α : Type) (env : PipelineEnv α) (name td : String)
    (h : ∀ n, ∃ e, env.fetch n = .error e) :
    (process_single_source env name td).1.success = false ∧
    (process_single_source env name td).2.fetchAttempts = 3 ∧
    (process_single_source env name td).2.connectAttempted = false := by
  obtain ⟨e0, h0⟩ := h 0
  obtain ⟨e1, h1⟩ := h 1
  obtain ⟨e2, h2⟩ := h 2
  simp [process_single_source, read_csv_with_retry, retryGo, h0, h1, h2]

/-- Witness for C4 at the always-failing environment. -/
theorem fetch_exhaustion_witness :
    (process_single_source envAllFail "x" "/d").1.success = false ∧
    (process_single_source envAllFail "x" "/d").2.fetchAttempts = 3 ∧
    (process_single_source envAllFail "x" "/d").2.connectAttempted = false :=
  fetch_exhaustion Nat envAllFail "x" "/d" (fun _ => ⟨"timeout", rfl⟩)

/-- C5: both strategies produce exactly one result per input source —
`run_sequential` keyed in the mapping's iteration order, `run_parallel` keyed
by a permutation of the sources (completion order) — and an exception raised
out of a worker's future is converted at the collection loop into a failed
result with message "Unexpected error: ..." instead of propagating. -/
theorem run_strategies_complete (α : Type) (envs : String → PipelineEnv α)
    (td : String) (futureResult : String → Except String ProcessResult)
    (config order : List String) (hperm : order.Perm config) :
    (run_sequential envs td config).map Prod.fst = config ∧
    ((run_parallel futureResult order).map Prod.fst).Perm config ∧
    (∀ name e, futureResult name = .error e → name ∈ order →
      (name, ⟨name, false, "Unexpected error: " ++ e, none, none⟩)
        ∈ run_parallel futureResult order) := by
  refine ⟨?_, ?_, ?_⟩
  · simp [run_sequential, Function.comp_def]
  · have hfst : (run_parallel futureResult order).map Prod.fst = order := by
      simp [run_parallel, Function.comp_def]
    rw [hfst]
    exact hperm
  · intro name e he hmem
    have hm : (name, collect_future name (futureResult name))
        ∈ run_parallel futureResult order :=
      List.mem_map_of_mem _ hmem
    simpa [collect_future, he] using hm

/-- Witness for C5: two sources, the worker for `"b"` crashing, completion
order the reverse of submission order. -/
theorem run_strategies_complete_witness :
    (run_sequential seqEnvs "/d" ["a", "b"]).map Prod.fst = ["a", "b"] ∧
    ((run_parallel parFutures ["b", "a"]).map Prod.fst).Perm ["a", "b"] ∧
    (∀ name e, parFutures name = .error e → name ∈ ["b", "a"] →
      (name, ⟨name, false, "Unexpected error: " ++ e, none, none⟩)
        ∈ run_parallel parFutures ["b", "a"]) :=
  run_strategies_complete Nat seqEnvs "/d" parFutures ["a", "b"] ["b", "a"] (by decide)

/-- C6: the summary counts all entries, counts successes, reports
`failed = total - successful`, sums `file_size` over successful entries only,
and sums `processing_time` over all entries; on the example mapping
`{A: success(100, 1.0), B: failure, C: success(200, 2.0)}` it reports
`(3, 2, 1, 300, 3.0)`. -/
theorem print_summary_spec (results : List ProcessResult) :
    (print_summary results).total = results.length ∧
    (print_summary results).successful = results.countP (fun r => r.success) ∧
    (print_summary results).failed
      = (print_summary results).total - (print_summary results).successful ∧
    (print_summary results).total_size
      = ((results.filter (fun r => r.success)).map (fun r => r.file_size.getD 0)).sum ∧
    (print_summary results).total_time
      = (results.map (fun r => r.processing_time.getD 0)).sum ∧
    print_summary
      [⟨"A", true, "ok", some 100, some 1⟩, ⟨"B", false, "boom", none, none⟩,
       ⟨"C", true, "ok", some 200, some 2⟩] = ⟨3, 2, 1, 300, 3⟩ := by
  refine ⟨rfl, ?_, rfl, rfl, rfl, ?_⟩
  · simp [print_summary, List.countP_eq_length_filter]
  · simp [print_summary]
    norm_num

/-- C7 counterexample: an invocation with a valid execution mode but an
invalid processing mode does not exit — `main ["manual", "bogus"]` runs the
pipeline sequentially, because line 296 only tests `== "parallel"` and every
other value falls to the sequential branch. -/
theorem main_invalid_processing_mode_still_processes :
    main ["manual", "bogus"] = .runOnce false ∧
    exitsNonZeroWithoutProcessing (main ["manual", "bogus"]) = false := by
  decide

/-- C7 (amended): an invocation with no arguments, or with an execution-mode
selector that is neither "manual" nor "schedule", exits with a non-zero
status without processing any source; the processing-mode selector is never
validated — any value other than "parallel" (including invalid ones) is
treated as "sequential" and the sources are processed. -/
theorem main_mode_validation (em pm : String) (rest : List String)
    (hm : em ≠ "manual") (hs : em ≠ "schedule") (hp : pm ≠ "parallel") :
    main (em :: rest) = .exitInvalidMode ∧
    exitsNonZeroWithoutProcessing (main (em :: rest)) = true ∧
    main [] = .exitUsage ∧
    exitsNonZeroWithoutProcessing (main []) = true ∧
    main ("manual" :: pm :: rest) = .runOnce false ∧
    main ("schedule" :: pm :: rest) = .scheduleDaily false := by
  refine ⟨?_, ?_, rfl, rfl, ?_, ?_⟩ <;>
    simp [main, exitsNonZeroWithoutProcessing, hm, hs, hp]

/-- Witness for the amended C7 at concrete selectors. -/
theorem main_mode_validation_witness :
    main ["bogus"] = .exitInvalidMode ∧
    exitsNonZeroWithoutProcessing (main ["bogus"]) = true ∧
    main [] = .exitUsage ∧
    exitsNonZeroWithoutProcessing (main []) = true ∧
    main ["manual", "seq"] = .runOnce false ∧
    main ["schedule", "seq"] = .scheduleDaily false :=
  main_mode_validation "bogus" "seq" [] (by decide) (by decide) (by decide)

/-- C8: `ensure_ftp_directory` is idempotent on success — after a successful
call, a second call on the same path succeeds with the server state
unchanged (every segment now exists, so every `cwd` succeeds and no `mkd` is
issued, hence no duplicate-creation error can be surfaced). -/
theorem ensure_ftp_directory_idempotent (s : FTPServer) (target : String)
    (h : (ensure_ftp_directory s target).1 = true) :
    ensure_ftp_directory (ensure_ftp_directory s target).2 target
      = (true, (ensure_ftp_directory s target).2) := by
  by_cases h0 : cwdOk s (serverNorm target) = true
  · have hE : ensure_ftp_directory s target = (true, s) := by
      rw [ensure_ftp_directory, if_pos h0]
    rw [hE]
    exact hE
  · rw [ensure_ftp_directory, if_neg h0] at h
    have hE : ensure_ftp_directory s target
        = (true, (ensureLoop s [] (pathSegs target)).2) := by
      rw [ensure_ftp_directory, if_neg h0, ← h]
    have hre : ensureLoop s [] (pathSegs target)
        = (true, (ensureLoop s [] (pathSegs target)).2) := by
      rw [← h]
    have hrep := ensureLoop_replay _ _ _ _ hre
    rw [hE]
    by_cases h1 : cwdOk (ensureLoop s [] (pathSegs target)).2 (serverNorm target) = true
    · rw [ensure_ftp_directory, if_pos h1]
    · rw [ensure_ftp_directory, if_neg h1]
      exact hrep

/-- Witness for C8: an initially empty permissive server and the default
target directory; the first call succeeds by creating every segment. -/
theorem ensure_ftp_directory_idempotent_witness :
    (ensure_ftp_directory emptyServer "/home/psyger/ftp/new").1 = true ∧
    ensure_ftp_directory (ensure_ftp_directory emptyServer "/home/psyger/ftp/new").2
        "/home/psyger/ftp/new"
      = (true, (ensure_ftp_directory emptyServer "/home/psyger/ftp/new").2) :=
  ⟨by decide, ensure_ftp_directory_idempotent emptyServer "/home/psyger/ftp/new" (by decide)⟩

/-- C9: `safe_delete_file` on a path that does not exist returns `True`
without invoking `os.remove` — absence is treated as successful deletion,
whatever `os.remove` would have done. -/
theorem safe_delete_file_absent (deleteRaises : Bool) :
    safe_delete_file false deleteRaises = ⟨true, false, false⟩ := rfl

/-- C10: `process_single_source` always returns exactly one result whose
`source_name` is the input name, and whenever the outer `except Exception`
handler runs, the result is failed with a message beginning "Error: ". -/
theorem process_single_source_total (α : Type) (env : PipelineEnv α) (name td : String) :
    (process_single_source env name td).1.source_name = name ∧
    ((process_single_source env name td).2.outerExceptRan = true →
      (process_single_source env name td).1.success = false ∧
      ∃ tail, (process_single_source env name td).1.message = "Error: " ++ tail) := by
  cases hr : (read_csv_with_retry env.fetch 3).result with
  | error e =>
    exact ⟨by simp [process_single_source, hr],
      fun _ => ⟨by simp [process_single_source, hr],
        ⟨e, by simp [process_single_source, hr]⟩⟩⟩
  | ok od =>
    cases od with
    | none =>
      exact ⟨by simp [process_single_source, hr],
        fun _ => ⟨by simp [process_single_source, hr],
          ⟨"'NoneType' object has no attribute 'to_csv'",
            by simp [process_single_source, hr]⟩⟩⟩
    | some df =>
      cases hs : env.stage df with
      | error e =>
        exact ⟨by simp [process_single_source, hr, hs],
          fun _ => ⟨by simp [process_single_source, hr, hs],
            ⟨e, by simp [process_single_source, hr, hs]⟩⟩⟩
      | ok n =>
        cases hc : env.connect with
        | error e =>
          exact ⟨by simp [process_single_source, hr, hs, hc],
            fun _ => ⟨by simp [process_single_source, hr, hs, hc],
              ⟨e, by simp [process_single_source, hr, hs, hc]⟩⟩⟩
        | ok ftp =>
          by_cases hup : (upload_to_ftp td ftp env.transferOk).1 = false
          · refine ⟨by simp [process_single_source, hr, hs, hc, hup], fun hco => ?_⟩
            exfalso
            simp [process_single_source, hr, hs, hc, hup] at hco
          · refine ⟨by simp [process_single_source, hr, hs, hc, hup], fun hco => ?_⟩
            exfalso
            simp [process_single_source, hr, hs, hc, hup] at hco

/-- Witness for C10 at the always-failing fetch environment, where the outer
handler runs. -/
theorem process_single_source_total_witness :
    (process_single_source envAllFail "w10" "/d").1.source_name = "w10" ∧
    ((process_single_source envAllFail "w10" "/d").1.success = false ∧
      ∃ tail, (process_single_source envAllFail "w10" "/d").1.message = "Error: " ++ tail) :=
  ⟨(process_single_source_total Nat envAllFail "w10" "/d").1,
   (process_single_source_total Nat envAllFail "w10" "/d").2 (by decide)⟩

end WebToFtp
